import Mathlib

/-!
Verification of the account-security core of the rest-api-template repository.

The TypeScript services are shallowly embedded as pure Lean functions over
explicit stores (lists of rows standing for the Prisma tables).  Timestamps
are integers (epoch milliseconds, or epoch seconds for JWT claims), Prisma
row ids are natural numbers, and each `prisma.*.update` by unique id is a
guarded map over the store.  bcrypt is modelled as a salted injective pairing
of salt and plaintext with its compare operation; the HMAC-based one-time
code of speakeasy is abstracted as a function parameter from secret and step
to code string.
-/

namespace RestApi

/- Timestamps are plain `Int`: epoch milliseconds for JavaScript `Date`
values, epoch seconds for the JWT `iat`/`exp` claims. -/

/-- Modelled from the spec: a bcrypt hash.  `bcrypt.hash(pw, rounds)` embeds
the plaintext irreversibly together with a random salt; two hashes of the
same password with different salts differ, and `bcrypt.compare` succeeds
exactly on the hashed plaintext.  The hash is modelled as the pair of the
salt drawn at hashing time and the plaintext. -/
structure BHash where
  salt : Nat
  pw : String
deriving DecidableEq

/-- `bcrypt.compare(candidate, stored)` / `isPasswordMatch` from
src/utils/encryption: true iff `stored` is a hash of `candidate`. -/
def isPasswordMatch (candidate : String) (stored : BHash) : Bool :=
  stored.pw == candidate

/-- The Prisma `TokenType` enum. -/
inductive TokenType where
  | ACCESS
  | REFRESH
  | RESET_PASSWORD
  | VERIFY_EMAIL
  | TWO_FACTOR
deriving DecidableEq

/-- A JWT produced by `tokenService.generateToken`: payload
`{ sub, iat, exp, type }` signed with the server key.  Only tokens signed
with the configured key appear as values of this type; `exp` is in epoch
seconds. -/
structure Jwt where
  sub : Nat
  iat : Int
  exp : Int
  type : TokenType
deriving DecidableEq

/-- A row of the Prisma `Token` table. -/
structure TokenRecord where
  id : Nat
  token : Jwt
  type : TokenType
  expires : Int
  blacklisted : Bool
  deviceId : Option String
  deviceName : Option String
  ipAddress : Option String
  userAgent : Option String
  createdAt : Int
  userId : Nat
deriving DecidableEq

/-- A row of the Prisma `Device` table. -/
structure DeviceRec where
  id : Nat
  userId : Nat
  deviceId : String
  deviceName : String
  deviceType : String
  ipAddress : Option String
  userAgent : Option String
  isTrusted : Bool
  lastUsed : Int
  createdAt : Int
deriving DecidableEq

/-- A row of the Prisma `User` table (the fields read or written by the
embedded services; `passwordHistory` is kept as the list of hashes that
passwordSecurity.service stores on the user, most recent first). -/
structure User where
  id : Nat
  email : String
  password : BHash
  isEmailVerified : Bool
  failedLoginAttempts : Nat
  lockoutUntil : Option Int
  lastLoginAt : Option Int
  twoFactorEnabled : Bool
  twoFactorSecret : Option String
  twoFactorBackupCodes : List String
  twoFactorVerified : Bool
  forcePasswordChange : Bool
  passwordChangedAt : Option Int
  passwordHistory : List BHash
  isActive : Bool
  isLocked : Bool
deriving DecidableEq

/-- `prisma.user.findUnique({ where: { id } })` over a user store. -/
def findUser (users : List User) (uid : Nat) : Option User :=
  users.find? fun u => u.id == uid

/-- `prisma.user.update({ where: { id }, data })` over a user store: the row
with the (unique) id is replaced by its image under `f`. -/
def updateUser (users : List User) (uid : Nat) (f : User → User) : List User :=
  users.map fun u => if u.id == uid then f u else u

/-- `ApiError(statusCode, message)` from src/utils/ApiError. -/
structure ApiError where
  statusCode : Nat
  message : String
deriving DecidableEq

namespace AuthServiceV1

/-- Outcome of the first `loginUserWithEmailAndPassword` in
src/services/auth.service.ts: `accountLocked` is the
`ApiError(TOO_MANY_REQUESTS, ...)` thrown while `lockoutUntil` is in the
future, `invalidCredentials` the `ApiError(UNAUTHORIZED, 'Incorrect email or
password')`, and the two non-error outcomes are the function's two return
shapes. -/
inductive LoginResult where
  | accountLocked (lockoutUntil : Int)
  | invalidCredentials
  | requiresTwoFactor (userId : Nat)
  | success (userId : Nat)
deriving DecidableEq

/-- The body of `loginUserWithEmailAndPassword` after the lockout gate:
password check, failed-attempt bookkeeping, 2FA branch, lastLoginAt update.
Returns the outcome together with the stored user row after the call. -/
def loginChecked (u : User) (password : String) (now : Int) :
    LoginResult × Option User :=
  if !isPasswordMatch password u.password then
    let failedAttempts := u.failedLoginAttempts + 1
    let lockoutUntil : Option Int :=
      if failedAttempts ≥ 5 then some (now + 15 * 60 * 1000) else none
    (.invalidCredentials,
      some { u with failedLoginAttempts := failedAttempts, lockoutUntil := lockoutUntil })
  else
    let u1 := if u.failedLoginAttempts > 0 then
        { u with failedLoginAttempts := 0, lockoutUntil := none } else u
    if u1.twoFactorEnabled then (.requiresTwoFactor u1.id, some u1)
    else (.success u1.id, some { u1 with lastLoginAt := some now })

/-- First `loginUserWithEmailAndPassword` of src/services/auth.service.ts.
`user` is the result of `getUserByEmail`; `now` is the call's clock reading
(`new Date()` / `Date.now()`). -/
def login (user : Option User) (password : String) (now : Int) :
    LoginResult × Option User :=
  match user with
  | none => (.invalidCredentials, none)
  | some u =>
    match u.lockoutUntil with
    | some t => if now < t then (.accountLocked t, some u) else loginChecked u password now
    | none => loginChecked u password now

end AuthServiceV1

namespace TwoFactorService

/-- Modelled from the speakeasy library (an external dependency):
`speakeasy.totp.verify({ secret, token, window })` accepts the token iff it
equals the one-time code of some counter within `window` steps of the
current counter (`totp.verifyDelta` checks counters from
`counter - window` to `counter + window`).  The HMAC-based per-step code is
abstracted as `hotp secret step`. -/
def speakeasyTotpVerify (hotp : String → Int → String) (secret : String)
    (currentStep : Int) (window : Nat) (token : String) : Bool :=
  (List.range (2 * window + 1)).any fun k =>
    hotp secret (currentStep - window + k) == token

/-- `verifyToken` from twoFactor.service: `speakeasy.totp.verify` with
`window: 2`.  `currentStep` is the 30-second counter at verification time. -/
def verifyToken (hotp : String → Int → String) (secret : String)
    (currentStep : Int) (token : String) : Bool :=
  speakeasyTotpVerify hotp secret currentStep 2 token

/-- The acceptance predicate in the words of the spec (for comparison with
`verifyToken`): the code matches the current step or one of the two
immediately adjacent 30-second steps. -/
def specTotpAccept (hotp : String → Int → String) (secret : String)
    (currentStep : Int) (token : String) : Bool :=
  (List.range 3).any fun k => hotp secret (currentStep - 1 + k) == token

/-- `Array.prototype.indexOf` of JavaScript, restricted to the found/not
found distinction: first index of `code`, or `none` for `-1`. -/
def indexOfCode (code : String) : List String → Option Nat
  | [] => none
  | c :: rest => if c == code then some 0 else (indexOfCode code rest).map (· + 1)

/-- `verifyBackupCode` from twoFactor.service: look the user up, search the
backup-code array, and on a hit splice the code out and persist the
shortened array.  (The Prisma column `twoFactorBackupCodes` is a non-null
`String[]`, so the JS null-guard on it never fires.) -/
def verifyBackupCode (users : List User) (uid : Nat) (code : String) :
    Bool × List User :=
  match findUser users uid with
  | none => (false, users)
  | some u =>
    let backupCodes := u.twoFactorBackupCodes
    match indexOfCode code backupCodes with
    | none => (false, users)
    | some i =>
      (true, updateUser users uid fun v =>
        { v with twoFactorBackupCodes := backupCodes.eraseIdx i })

/-- `disableTwoFactor` from twoFactor.service: requires the user to exist
and have 2FA enabled, verifies the submitted token with `verifyToken` (TOTP
only; the stored secret is read through a TS non-null assertion, modelled by
`Option.getD`), and on success wipes the secret, the backup codes, and the
enabled/verified flags. -/
def disableTwoFactor (hotp : String → Int → String) (currentStep : Int)
    (users : List User) (uid : Nat) (token : String) :
    Except ApiError Unit × List User :=
  match findUser users uid with
  | none => (.error ⟨404, "User not found"⟩, users)
  | some u =>
    if !u.twoFactorEnabled then (.error ⟨400, "2FA is not enabled"⟩, users)
    else if verifyToken hotp (u.twoFactorSecret.getD "") currentStep token then
      (.ok (), updateUser users uid fun v =>
        { v with twoFactorEnabled := false, twoFactorSecret := none,
                 twoFactorBackupCodes := [], twoFactorVerified := false })
    else (.error ⟨400, "Invalid 2FA token"⟩, users)

/-- `verifyTwoFactor` from twoFactor.service (login-time verification):
returns false when the user is missing, 2FA is disabled, or no secret is
stored (`!user.twoFactorSecret` is JS truthiness, so an empty-string secret
also short-circuits to false); otherwise tries the TOTP check first and only
then the backup codes.  It throws nothing: every path returns a boolean. -/
def verifyTwoFactor (hotp : String → Int → String) (currentStep : Int)
    (users : List User) (uid : Nat) (token : String) : Bool × List User :=
  match findUser users uid with
  | none => (false, users)
  | some u =>
    if !u.twoFactorEnabled then (false, users)
    else
      match u.twoFactorSecret with
      | none => (false, users)
      | some s =>
        if s == "" then (false, users)
        else if verifyToken hotp s currentStep token then (true, users)
        else verifyBackupCode users uid token

end TwoFactorService

namespace TokenService

/-- `generateToken` from token.service: signs
`{ sub: userId, iat: now, exp: expires, type }`. -/
def generateToken (userId : Nat) (nowSec expiresSec : Int) (type : TokenType) : Jwt :=
  ⟨userId, nowSec, expiresSec, type⟩

/-- The failure of `jwt.verify` relevant here: `TokenExpiredError` once the
current time has reached the `exp` claim.  Signature failures cannot arise
because every `Jwt` value models a token signed with the server key. -/
inductive JwtError where
  | expired
deriving DecidableEq

/-- `jwt.verify(token, secret)`: rejects an expired token, otherwise
returns the payload. -/
def jwtVerify (t : Jwt) (nowSec : Int) : Except JwtError Jwt :=
  if t.exp ≤ nowSec then .error .expired else .ok t

/-- Failures of `tokenService.verifyToken`: a jwt failure, or the
`Error('Token not found')` thrown when no matching non-blacklisted row
exists. -/
inductive VerifyError where
  | jwtError (e : JwtError)
  | tokenNotFound
deriving DecidableEq

/-- The row predicate of `verifyToken`'s `findFirst`:
`{ token, type, userId: payload.sub, blacklisted: false }`. -/
def verifyMatch (tok : Jwt) (type : TokenType) (r : TokenRecord) : Bool :=
  r.token == tok && r.type == type && r.userId == tok.sub && !r.blacklisted

/-- `verifyToken` from token.service: verify the JWT, then re-fetch the
persisted row (so blacklisting is observed); throws when no non-blacklisted
row matches. -/
def verifyToken (tokens : List TokenRecord) (tok : Jwt) (type : TokenType)
    (nowSec : Int) : Except VerifyError TokenRecord :=
  match jwtVerify tok nowSec with
  | .error e => .error (.jwtError e)
  | .ok payload =>
    match tokens.find? (verifyMatch ⟨payload.sub, payload.iat, payload.exp, payload.type⟩ type) with
    | none => .error .tokenNotFound
    | some r => .ok r

/-- `blacklistToken` from token.service:
`prisma.token.update({ where: { id }, data: { blacklisted: true } })`. -/
def blacklistToken (tokens : List TokenRecord) (tid : Nat) : List TokenRecord :=
  tokens.map fun r => if r.id == tid then { r with blacklisted := true } else r

end TokenService

/-- The mutable stores the auth flows touch: the `users`, `devices` and
`tokens` tables. -/
structure AuthState where
  users : List User
  devices : List DeviceRec
  tokens : List TokenRecord
deriving DecidableEq

namespace DeviceService

/-- `extractDeviceInfo` output (device.service): the request-derived device
metadata; the `deviceId` is the `x-device-id` header or a fresh uuid. -/
structure DeviceInfo where
  deviceId : String
  deviceName : String
  deviceType : String
  ipAddress : Option String
  userAgent : Option String
deriving DecidableEq

/-- `getDeviceById` from device.service:
`prisma.device.findFirst({ where: { deviceId, userId } })`. -/
def getDeviceById (devices : List DeviceRec) (deviceId : String) (uid : Nat) :
    Option DeviceRec :=
  devices.find? fun d => d.deviceId == deviceId && d.userId == uid

/-- `hasReachedDeviceLimit` from device.service: counts the user's rows of
the `Device` table (no filter beyond `userId`) and compares with the limit. -/
def hasReachedDeviceLimit (devices : List DeviceRec) (uid : Nat) (limit : Nat) : Bool :=
  (devices.filter fun d => d.userId == uid).length ≥ limit

/-- `createDeviceSession` from device.service: update the existing device
row for this `deviceId` (lastUsed and network metadata) or create a fresh
one, then stamp the device metadata onto the token rows holding the refresh
token (`prisma.token.updateMany`); no token row is created here. -/
def createDeviceSession (devices : List DeviceRec) (tokens : List TokenRecord)
    (uid : Nat) (refreshToken : Jwt) (info : DeviceInfo) (freshRowId : Nat)
    (now : Int) : DeviceRec × List DeviceRec × List TokenRecord :=
  let (device, devices1) : DeviceRec × List DeviceRec :=
    match getDeviceById devices info.deviceId uid with
    | some d =>
      let d1 := { d with lastUsed := now, ipAddress := info.ipAddress,
                         userAgent := info.userAgent }
      (d1, devices.map fun e => if e.id == d.id then d1 else e)
    | none =>
      let d1 : DeviceRec :=
        { id := freshRowId, userId := uid, deviceId := info.deviceId,
          deviceName := info.deviceName, deviceType := info.deviceType,
          ipAddress := info.ipAddress, userAgent := info.userAgent,
          isTrusted := false, lastUsed := now, createdAt := now }
      (d1, devices ++ [d1])
  let tokens1 := tokens.map fun r =>
    if r.token == refreshToken && r.userId == uid then
      { r with deviceId := some device.deviceId, deviceName := some device.deviceName,
               ipAddress := info.ipAddress, userAgent := info.userAgent }
    else r
  (device, devices1, tokens1)

end DeviceService

namespace TokenService

/-- `config.jwt.accessExpirationMinutes` (deployment configuration; the
concrete value does not matter to any claim). -/
def accessExpirationMinutes : Int := 30

/-- `config.jwt.refreshExpirationDays`. -/
def refreshExpirationDays : Int := 30

/-- The `AuthTokensResponse` returned by the device-aware
`generateAuthTokens`. -/
structure AuthTokensResponse where
  accessToken : Jwt
  accessExpires : Int
  refreshToken : Jwt
  refreshExpires : Int
  deviceId : String
  deviceName : String
deriving DecidableEq

/-- `generateAuthTokens` from token.service (the device-aware variant):
signs an ACCESS and a REFRESH token and hands the refresh token to
`deviceService.createDeviceSession`; the login-alert notification is an
external side effect without state in this model. -/
def generateAuthTokens (st : AuthState) (uid : Nat) (info : DeviceService.DeviceInfo)
    (freshRowId : Nat) (nowSec : Int) (nowMs : Int) :
    AuthTokensResponse × AuthState :=
  let accessTokenExpires := nowSec + accessExpirationMinutes * 60
  let accessToken := generateToken uid nowSec accessTokenExpires .ACCESS
  let refreshTokenExpires := nowSec + refreshExpirationDays * 86400
  let refreshToken := generateToken uid nowSec refreshTokenExpires .REFRESH
  let (session, devices1, tokens1) :=
    DeviceService.createDeviceSession st.devices st.tokens uid refreshToken info
      freshRowId nowMs
  (⟨accessToken, accessTokenExpires, refreshToken, refreshTokenExpires,
    session.deviceId, session.deviceName⟩,
   { st with devices := devices1, tokens := tokens1 })

end TokenService

namespace AuthServiceV2

/-- The device-aware `loginUserWithEmailAndPassword` of
src/services/auth.service.ts: credential check, account-state gates, the
hard-reject device-limit gate, failed-attempt reset, lastLoginAt update and
token issuance.  (The defensive `!user.id || !user.password` check of the
source cannot fire in this model: Prisma makes both columns non-null and
ids are naturals.) -/
def login (st : AuthState) (email password : String) (info : DeviceService.DeviceInfo)
    (freshRowId : Nat) (nowSec : Int) (nowMs : Int) :
    Except ApiError TokenService.AuthTokensResponse × AuthState :=
  match st.users.find? (fun u => u.email == email) with
  | none => (.error ⟨401, "Incorrect email or password"⟩, st)
  | some user =>
    if !isPasswordMatch password user.password then
      (.error ⟨401, "Incorrect email or password"⟩, st)
    else if user.isLocked then
      (.error ⟨403, "Account is locked. Please contact support."⟩, st)
    else if !user.isActive then
      (.error ⟨403, "Account is deactivated. Please contact support."⟩, st)
    else if !user.isEmailVerified then
      (.error ⟨401, "Email not verified. Please verify your email before logging in."⟩, st)
    else if DeviceService.hasReachedDeviceLimit st.devices user.id 3 then
      (.error ⟨403, "Device limit reached. Please remove an old device to log in from a new one."⟩, st)
    else
      let users1 :=
        if user.failedLoginAttempts > 0 then
          updateUser st.users user.id fun v =>
            { v with failedLoginAttempts := 0, lockoutUntil := none }
        else st.users
      let users2 := updateUser users1 user.id fun v => { v with lastLoginAt := some nowMs }
      let (resp, st1) :=
        TokenService.generateAuthTokens { st with users := users2 } user.id info
          freshRowId nowSec nowMs
      (.ok resp, st1)

/-- The device-aware `refreshAuth` of src/services/auth.service.ts: verify
the old refresh token, look the user up, issue a new pair, then blacklist
the old token's row; every failure inside the `try` surfaces as
`ApiError(401, 'Please authenticate')`. -/
def refreshAuth (st : AuthState) (refreshToken : Jwt) (info : DeviceService.DeviceInfo)
    (freshRowId : Nat) (nowSec : Int) (nowMs : Int) :
    Except ApiError TokenService.AuthTokensResponse × AuthState :=
  match TokenService.verifyToken st.tokens refreshToken .REFRESH nowSec with
  | .error _ => (.error ⟨401, "Please authenticate"⟩, st)
  | .ok refreshTokenDoc =>
    match findUser st.users refreshTokenDoc.userId with
    | none => (.error ⟨401, "Please authenticate"⟩, st)
    | some user =>
      let (tokens, st1) :=
        TokenService.generateAuthTokens st user.id info freshRowId nowSec nowMs
      (.ok tokens,
       { st1 with tokens := TokenService.blacklistToken st1.tokens refreshTokenDoc.id })

end AuthServiceV2

namespace DeviceSessionService

/-- `MAX_DEVICES_PER_USER` of the eviction-based device module in
src/services/email.service.ts. -/
def MAX_DEVICES_PER_USER : Nat := 3

/-- The `where` clause shared by `checkDeviceLimit` and
`removeOldestDevice`: the user's non-blacklisted REFRESH tokens whose
`expires` is still in the future — the active device sessions. -/
def isActiveSession (uid : Nat) (now : Int) (r : TokenRecord) : Bool :=
  r.userId == uid && r.type == TokenType.REFRESH && !r.blacklisted &&
    decide (now < r.expires)

/-- `checkDeviceLimit`: the user's active sessions, in creation order, and
whether their number has reached `MAX_DEVICES_PER_USER`. -/
def checkDeviceLimit (tokens : List TokenRecord) (uid : Nat) (now : Int) :
    Bool × List TokenRecord :=
  let activeDevices := tokens.filter (isActiveSession uid now)
  (activeDevices.length ≥ MAX_DEVICES_PER_USER, activeDevices)

/-- The `findFirst ... orderBy: { createdAt: 'asc' }` of
`removeOldestDevice`: the active session with the least `createdAt` (the
first such row on ties, which no claim exercises). -/
def oldestActiveSession (tokens : List TokenRecord) (uid : Nat) (now : Int) :
    Option TokenRecord :=
  match tokens.filter (isActiveSession uid now) with
  | [] => none
  | r :: rs => some (rs.foldl (fun acc x => if x.createdAt < acc.createdAt then x else acc) r)

/-- `removeOldestDevice`: blacklist the oldest active session's refresh
token (a no-op when the user has no active session). -/
def removeOldestDevice (tokens : List TokenRecord) (uid : Nat) (now : Int) :
    List TokenRecord :=
  match oldestActiveSession tokens uid now with
  | none => tokens
  | some oldest => TokenService.blacklistToken tokens oldest.id

/-- The token row `createDeviceSession` persists for the new device:
a REFRESH token expiring 30 days out, not blacklisted, carrying the device
metadata. -/
def newSessionRecord (uid : Nat) (tokenValue : Jwt) (now : Int) (freshId : Nat)
    (deviceId deviceName ipAddress userAgent : String) : TokenRecord :=
  { id := freshId, token := tokenValue, type := .REFRESH,
    expires := now + 30 * 24 * 60 * 60 * 1000, blacklisted := false,
    deviceId := some deviceId, deviceName := some deviceName,
    ipAddress := some ipAddress, userAgent := some userAgent,
    createdAt := now, userId := uid }

/-- `createDeviceSession` of the eviction-based module: when the user is at
the device cap, evict the single oldest active session, then persist the new
refresh-token row.  `deviceId` is the fresh uuid of `generateDeviceId`; the
name/ip/agent come from `getDeviceInfo(req)`. -/
def createDeviceSession (tokens : List TokenRecord) (uid : Nat) (tokenValue : Jwt)
    (now : Int) (freshId : Nat) (deviceId deviceName ipAddress userAgent : String) :
    (String × String × String × String) × List TokenRecord :=
  let hasReachedLimit := (checkDeviceLimit tokens uid now).1
  let tokens1 := if hasReachedLimit then removeOldestDevice tokens uid now else tokens
  ((deviceId, deviceName, ipAddress, userAgent),
   tokens1 ++ [newSessionRecord uid tokenValue now freshId deviceId deviceName ipAddress userAgent])

end DeviceSessionService

namespace PasswordSecurityService

/-- `PASSWORD_HISTORY_LIMIT` of passwordSecurity.service. -/
def PASSWORD_HISTORY_LIMIT : Nat := 5

/-- `PASSWORD_EXPIRY_DAYS`. -/
def PASSWORD_EXPIRY_DAYS : Int := 90

/-- One day in epoch milliseconds. -/
def dayMs : Int := 24 * 60 * 60 * 1000

/-- The JS regex `/[A-Z]/.test`. -/
def hasUppercase (s : String) : Bool := s.toList.any fun c => 'A' ≤ c && c ≤ 'Z'

/-- The JS regex `/[a-z]/.test`. -/
def hasLowercase (s : String) : Bool := s.toList.any fun c => 'a' ≤ c && c ≤ 'z'

/-- The JS regex `/\d/.test`. -/
def hasDigit (s : String) : Bool := s.toList.any fun c => '0' ≤ c && c ≤ '9'

/-- The special-character class of `checkPasswordStrength`'s regex. -/
def specialChars : List Char := "!@#$%^&*(),.?\":\x7b\x7d|<>".toList

/-- The JS special-character regex test. -/
def hasSpecialChar (s : String) : Bool := s.toList.any fun c => specialChars.contains c

/-- The `{ isValid, errors }` result of the validation functions. -/
structure ValidationResult where
  isValid : Bool
  errors : List String
deriving DecidableEq

/-- `checkPasswordStrength`: all four class checks and the length check run
and their violations are collected in order. -/
def checkPasswordStrength (password : String) : ValidationResult :=
  let errors :=
    (if password.length < 8 then ["Password must be at least 8 characters long"] else []) ++
    (if !hasUppercase password then ["Password must contain at least one uppercase letter"] else []) ++
    (if !hasLowercase password then ["Password must contain at least one lowercase letter"] else []) ++
    (if !hasDigit password then ["Password must contain at least one number"] else []) ++
    (if !hasSpecialChar password then ["Password must contain at least one special character"] else [])
  ⟨errors.isEmpty, errors⟩

/-- `isPasswordInHistory`: `bcrypt.compare` of the candidate against every
hash stored in the user's `passwordHistory` list. -/
def isPasswordInHistory (users : List User) (uid : Nat) (newPassword : String) : Bool :=
  match findUser users uid with
  | none => false
  | some u => u.passwordHistory.any fun h => isPasswordMatch newPassword h

/-- `isPasswordExpired`: expired iff `now` is strictly past
`passwordChangedAt + 90 days`; a user with no `passwordChangedAt` (or no
row) is not expired.  (The JS `setDate(getDate() + 90)` is modelled as
adding 90 days of milliseconds; DST shifts are out of scope.) -/
def isPasswordExpired (users : List User) (uid : Nat) (now : Int) : Bool :=
  match findUser users uid with
  | none => false
  | some u =>
    match u.passwordChangedAt with
    | none => false
    | some changedAt => decide (changedAt + PASSWORD_EXPIRY_DAYS * dayMs < now)

/-- `Math.ceil(a / b)` for integer `a` and positive integer `b` (the JS
float division is exact at the magnitudes involved). -/
def ceilDiv (a b : Int) : Int := -((-a) / b)

/-- The `{ isExpired, daysUntilExpiry, expiryDate }` record of
`getPasswordExpiryInfo`. -/
structure PasswordExpiryInfo where
  isExpired : Bool
  daysUntilExpiry : Int
  expiryDate : Int
deriving DecidableEq

/-- `getPasswordExpiryInfo`: computes `daysUntilExpiry` as the ceiling of
the remaining time in days and reports `isExpired` as that (unclamped)
number being negative; the returned day count is clamped at 0. -/
def getPasswordExpiryInfo (users : List User) (uid : Nat) (now : Int) :
    PasswordExpiryInfo :=
  match findUser users uid with
  | none => ⟨false, PASSWORD_EXPIRY_DAYS, now + PASSWORD_EXPIRY_DAYS * dayMs⟩
  | some u =>
    match u.passwordChangedAt with
    | none => ⟨false, PASSWORD_EXPIRY_DAYS, now + PASSWORD_EXPIRY_DAYS * dayMs⟩
    | some changedAt =>
      let expiryDate := changedAt + PASSWORD_EXPIRY_DAYS * dayMs
      let daysUntilExpiry := ceilDiv (expiryDate - now) dayMs
      ⟨decide (daysUntilExpiry < 0), max 0 daysUntilExpiry, expiryDate⟩

/-- `validateNewPassword`: strength violations plus the reuse violation. -/
def validateNewPassword (users : List User) (uid : Nat) (newPassword : String) :
    ValidationResult :=
  let strengthCheck := checkPasswordStrength newPassword
  let errors := strengthCheck.errors ++
    (if isPasswordInHistory users uid newPassword then
      ["Password has been used recently. Please choose a different password."] else [])
  ⟨errors.isEmpty, errors⟩

/-- `addPasswordToHistory`: prepend the supplied hash to the fetched user's
history, truncate to depth 5, and stamp `passwordChangedAt`. -/
def addPasswordToHistory (users : List User) (uid : Nat) (hashedPassword : BHash)
    (now : Int) : Except ApiError (List User) :=
  match findUser users uid with
  | none => .error ⟨404, "User not found"⟩
  | some u =>
    .ok (updateUser users uid fun v =>
      { v with passwordHistory := (hashedPassword :: u.passwordHistory).take PASSWORD_HISTORY_LIMIT,
               passwordChangedAt := some now })

/-- `updatePassword`: validate, hash the new password (`salt` models the
salt bcrypt draws), add that new hash to the history, and store it as the
user's password. -/
def updatePassword (users : List User) (uid : Nat) (newPassword : String)
    (salt : Nat) (now : Int) : Except ApiError (List User) :=
  let validation := validateNewPassword users uid newPassword
  if !validation.isValid then
    .error ⟨400, String.intercalate ", " validation.errors⟩
  else
    let hashedPassword : BHash := ⟨salt, newPassword⟩
    match addPasswordToHistory users uid hashedPassword now with
    | .error e => .error e
    | .ok users1 =>
      .ok (updateUser users1 uid fun v =>
        { v with password := hashedPassword, passwordChangedAt := some now })

end PasswordSecurityService

/-- The device-limit predicate in the words of the spec (for comparison with
`DeviceService.hasReachedDeviceLimit`): the user holds `cap` or more active,
non-expired, non-blacklisted refresh-token device sessions. -/
def specHasReachedLimit (tokens : List TokenRecord) (uid : Nat) (cap : Nat)
    (now : Int) : Bool :=
  cap ≤ (tokens.filter fun r =>
    r.userId == uid && r.type == TokenType.REFRESH && !r.blacklisted &&
      decide (now < r.expires)).length

/-- A concrete user row for instantiating the theorems; the security fields
are overridden per scenario with record updates. -/
def baseUser : User :=
  { id := 1, email := "user@example.com", password := ⟨0, "Correct1!"⟩,
    isEmailVerified := true, failedLoginAttempts := 0, lockoutUntil := none,
    lastLoginAt := none, twoFactorEnabled := false, twoFactorSecret := none,
    twoFactorBackupCodes := [], twoFactorVerified := false,
    forcePasswordChange := false, passwordChangedAt := none,
    passwordHistory := [], isActive := true, isLocked := false }

/-- A user four failed attempts in, with no lockout pending. -/
def lockoutDemoUser : User := { baseUser with failedLoginAttempts := 4 }

/-- A user with 2FA enabled, a stored secret, and two unused backup codes. -/
def twoFactorDemoUser : User :=
  { baseUser with twoFactorEnabled := true, twoFactorSecret := some "JBSWY3DP",
                  twoFactorBackupCodes := ["BACKUP11", "BACKUP22"],
                  twoFactorVerified := true }

/-- The store holding just `twoFactorDemoUser`. -/
def twoFactorDemoUsers : List User := [twoFactorDemoUser]

/-- A user whose password was last changed at epoch 0 and who has one hash
in the history and a pending forced password change. -/
def passwordDemoUsers : List User :=
  [{ baseUser with password := ⟨0, "OldPass1!"⟩,
                   passwordHistory := [⟨0, "OldPass1!"⟩],
                   passwordChangedAt := some 0,
                   forcePasswordChange := true }]

/-- Request-derived device metadata for the token-issuance scenarios. -/
def demoDeviceInfo : DeviceService.DeviceInfo :=
  ⟨"device-1", "Phone", "MOBILE", none, none⟩

/-- A refresh JWT for user 1, issued at epoch second 0, expiring at epoch
second 1000000. -/
def refreshDemoToken : Jwt := ⟨1, 0, 1000000, .REFRESH⟩

/-- The persisted, non-blacklisted row of `refreshDemoToken`. -/
def refreshDemoRecord : TokenRecord :=
  { id := 5, token := refreshDemoToken, type := .REFRESH, expires := 999999999,
    blacklisted := false, deviceId := none, deviceName := none,
    ipAddress := none, userAgent := none, createdAt := 0, userId := 1 }

/-- A store holding user 1 and the persisted row of `refreshDemoToken`. -/
def refreshDemoState : AuthState := ⟨[baseUser], [], [refreshDemoRecord]⟩

/-- Three `Device`-table rows of user 1 (the part_007 device model, which
has no expiry or blacklist state of its own). -/
def threeDeviceRows : List DeviceRec :=
  [⟨1, 1, "d1", "Phone", "MOBILE", none, none, false, 0, 0⟩,
   ⟨2, 1, "d2", "Laptop", "DESKTOP", none, none, false, 0, 0⟩,
   ⟨3, 1, "d3", "Tablet", "TABLET", none, none, false, 0, 0⟩]

/-- A state in which user 1 owns three device rows but not a single active
refresh-token session. -/
def deviceLimitDemoState : AuthState := ⟨[baseUser], threeDeviceRows, []⟩

/-- Three active refresh-token sessions of user 1, created at times 100,
200, 300 (the A, B, C of the FIFO-eviction scenario). -/
def sessionA : TokenRecord :=
  { id := 11, token := ⟨1, 0, 9999, .REFRESH⟩, type := .REFRESH, expires := 1000000,
    blacklisted := false, deviceId := some "dA", deviceName := some "A",
    ipAddress := none, userAgent := none, createdAt := 100, userId := 1 }

/-- Session B of the FIFO-eviction scenario. -/
def sessionB : TokenRecord :=
  { sessionA with id := 12, token := ⟨1, 1, 9999, .REFRESH⟩, deviceId := some "dB",
                  deviceName := some "B", createdAt := 200 }

/-- Session C of the FIFO-eviction scenario. -/
def sessionC : TokenRecord :=
  { sessionA with id := 13, token := ⟨1, 2, 9999, .REFRESH⟩, deviceId := some "dC",
                  deviceName := some "C", createdAt := 300 }

/-! ## Helper lemmas -/

/-- `find?` returns the head of the filtered list. -/
theorem find_eq_head_filter {α : Type} (p : α → Bool) (l : List α) :
    l.find? p = (l.filter p).head? := by
  induction l with
  | nil => rfl
  | cons a l ih =>
    by_cases h : p a
    · rw [List.find?_cons_of_pos _ h, List.filter_cons_of_pos h]; rfl
    · rw [List.find?_cons_of_neg _ h, List.filter_cons_of_neg h]; exact ih

/-- Updating a user by id preserves the result of looking that id up, as
long as the update does not change the id. -/
theorem findUser_updateUser (users : List User) (uid : Nat) (f : User → User)
    (u : User) (hid : ∀ v, (f v).id = v.id) (hu : findUser users uid = some u) :
    findUser (updateUser users uid f) uid = some (f u) := by
  induction users with
  | nil => simp [findUser] at hu
  | cons a l ih =>
    unfold findUser updateUser at *
    cases hab : (a.id == uid) with
    | true =>
      simp only [List.find?_cons, hab] at hu
      injection hu with hu
      subst hu
      have ha : a.id = uid := by simpa using hab
      simp [List.find?_cons, hid, ha]
    | false =>
      simp only [List.find?_cons, hab] at hu
      simp only [List.map_cons, hab]
      simp only [Bool.false_eq_true, if_false, List.find?_cons, hab]
      exact ih hu

/-! ## C1 — fifth consecutive failure locks the account for 15 minutes -/

/-- C1: for every user with `failedLoginAttempts = 4` and no active lockout
who submits a wrong password, the login fails with the invalid-credentials
error, the stored row gets `failedLoginAttempts = 5` and
`lockoutUntil = now + 15 minutes`, and every later login attempt — any
password — made while `now < lockoutUntil` fails with the account-locked
error. -/
theorem login_fifth_failure_locks_out (u : User) (pw : String) (now : Int)
    (hfail : u.failedLoginAttempts = 4)
    (hnolock : ∀ t, u.lockoutUntil = some t → t ≤ now)
    (hwrong : isPasswordMatch pw u.password = false) :
    (AuthServiceV1.login (some u) pw now).1 = .invalidCredentials ∧
    (AuthServiceV1.login (some u) pw now).2 =
      some { u with failedLoginAttempts := 5,
                    lockoutUntil := some (now + 15 * 60 * 1000) } ∧
    ∀ pw2 now2, now2 < now + 15 * 60 * 1000 →
      (AuthServiceV1.login (AuthServiceV1.login (some u) pw now).2 pw2 now2).1 =
        .accountLocked (now + 15 * 60 * 1000) := by
  have hbody : AuthServiceV1.loginChecked u pw now =
      (.invalidCredentials,
        some { u with failedLoginAttempts := 5,
                      lockoutUntil := some (now + 15 * 60 * 1000) }) := by
    unfold AuthServiceV1.loginChecked
    rw [hwrong, hfail]
    norm_num
  have hstep : AuthServiceV1.login (some u) pw now =
      (.invalidCredentials,
        some { u with failedLoginAttempts := 5,
                      lockoutUntil := some (now + 15 * 60 * 1000) }) := by
    cases h : u.lockoutUntil with
    | none => simp only [AuthServiceV1.login, h]; exact hbody
    | some t =>
      have ht := hnolock t h
      have hnlt : ¬ (now < t) := not_lt.mpr ht
      simp only [AuthServiceV1.login, h]
      rw [if_neg hnlt]
      exact hbody
  refine ⟨by rw [hstep], by rw [hstep], ?_⟩
  intro pw2 now2 h2
  rw [hstep]
  simp only [AuthServiceV1.login]
  rw [if_pos h2]

/-- Witness for C1 at a concrete user four failures in. -/
theorem login_fifth_failure_locks_out_witness :
    (AuthServiceV1.login (some lockoutDemoUser) "wrong" 0).1 = .invalidCredentials ∧
    (AuthServiceV1.login (some lockoutDemoUser) "wrong" 0).2 =
      some { lockoutDemoUser with failedLoginAttempts := 5,
                                  lockoutUntil := some (0 + 15 * 60 * 1000) } ∧
    ∀ pw2 now2, now2 < 0 + 15 * 60 * 1000 →
      (AuthServiceV1.login (AuthServiceV1.login (some lockoutDemoUser) "wrong" 0).2 pw2 now2).1 =
        .accountLocked (0 + 15 * 60 * 1000) :=
  login_fifth_failure_locks_out lockoutDemoUser "wrong" 0 (by decide)
    (by intro t ht; simp [lockoutDemoUser, baseUser] at ht) (by decide)

/-! ## C3 — TOTP verification window -/

/-- C3 counterexample: `twoFactorService.verifyToken` passes `window: 2` to
speakeasy, so a code two whole steps away from the current step is accepted,
while the claim's acceptance predicate (current step or one immediately
adjacent step) rejects it.  Here the one-time code of step 8 is submitted at
current step 10. -/
theorem verifyToken_accepts_code_two_steps_away :
    TwoFactorService.verifyToken
      (fun _ s => if s == 8 then "123456" else "000000") "JBSWY3DP" 10 "123456" = true ∧
    TwoFactorService.specTotpAccept
      (fun _ s => if s == 8 then "123456" else "000000") "JBSWY3DP" 10 "123456" = false := by
  constructor <;> decide

/-- C3 amended: `verifyToken` accepts a code if and only if it matches the
one-time code of some step at distance at most two from the current step
(speakeasy `window: 2`), rather than at most one as claimed. -/
theorem verifyToken_window_two_iff (hotp : String → Int → String) (secret : String)
    (step : Int) (token : String) :
    TwoFactorService.verifyToken hotp secret step token = true ↔
      ∃ i : Int, -2 ≤ i ∧ i ≤ 2 ∧ hotp secret (step + i) = token := by
  unfold TwoFactorService.verifyToken TwoFactorService.speakeasyTotpVerify
  rw [List.any_eq_true]
  constructor
  · rintro ⟨k, hk, heq⟩
    rw [List.mem_range] at hk
    refine ⟨(k : Int) - 2, by omega, by omega, ?_⟩
    have harg : step - ((2 : Nat) : Int) + (k : Int) = step + ((k : Int) - 2) := by
      push_cast
      ring
    rw [← harg]
    exact eq_of_beq heq
  · rintro ⟨i, h1, h2, heq⟩
    refine ⟨(i + 2).toNat, ?_, ?_⟩
    · rw [List.mem_range]
      omega
    · have harg : step - ((2 : Nat) : Int) + ((i + 2).toNat : Int) = step + i := by
        have : ((i + 2).toNat : Int) = i + 2 := Int.toNat_of_nonneg (by omega)
        rw [this]
        push_cast
        ring
      rw [harg, heq]
      exact beq_self_eq_true token

/-! ## C6 — backup codes are consume-once -/

/-- `indexOfCode` misses exactly the absent codes. -/
theorem indexOfCode_eq_none_iff (code : String) (l : List String) :
    TwoFactorService.indexOfCode code l = none ↔ code ∉ l := by
  induction l with
  | nil => simp [TwoFactorService.indexOfCode]
  | cons c rest ih =>
    unfold TwoFactorService.indexOfCode
    cases hc : (c == code) with
    | true =>
      have : c = code := by simpa using hc
      subst this
      simp
    | false =>
      have hne : c ≠ code := by simpa using hc
      simp only [Bool.false_eq_true, if_false, Option.map_eq_none', ih, List.mem_cons]
      constructor
      · rintro hnot (h | h)
        · exact hne h.symm
        · exact hnot h
      · intro hnot h
        exact hnot (Or.inr h)

/-- On a hit, splicing at the found index is erasing the first occurrence. -/
theorem indexOfCode_eraseIdx (code : String) (l : List String) (i : Nat)
    (h : TwoFactorService.indexOfCode code l = some i) :
    l.eraseIdx i = l.erase code ∧ code ∈ l := by
  induction l generalizing i with
  | nil => simp [TwoFactorService.indexOfCode] at h
  | cons c rest ih =>
    unfold TwoFactorService.indexOfCode at h
    cases hc : (c == code) with
    | true =>
      rw [hc] at h
      simp only [if_true] at h
      injection h with h
      subst h
      have hceq : c = code := by simpa using hc
      refine ⟨?_, by simp [hceq]⟩
      rw [List.erase_cons, hc]
      rfl
    | false =>
      rw [hc] at h
      simp only [Bool.false_eq_true, if_false, Option.map_eq_some'] at h
      obtain ⟨j, hj, hij⟩ := h
      subst hij
      obtain ⟨h1, h2⟩ := ih j hj
      refine ⟨?_, List.mem_cons_of_mem _ h2⟩
      rw [List.erase_cons, hc]
      simp only [Bool.false_eq_true, if_false]
      rw [List.eraseIdx_cons_succ, h1]

/-- C6: `verifyBackupCode` succeeds exactly when the submitted code is in
the user's backup-code set; on success the code is removed from the stored
set, so of two successive verifications of the same valid code the first
succeeds, the second fails, and the code is absent afterward.  (The
backup-code list is a set: no duplicates, as generated.) -/
theorem verifyBackupCode_consume_once (users : List User) (uid : Nat) (code : String)
    (u : User) (hu : findUser users uid = some u)
    (hnodup : u.twoFactorBackupCodes.Nodup) :
    ((TwoFactorService.verifyBackupCode users uid code).1 = true ↔
      code ∈ u.twoFactorBackupCodes) ∧
    (code ∈ u.twoFactorBackupCodes →
      (TwoFactorService.verifyBackupCode users uid code).1 = true ∧
      findUser (TwoFactorService.verifyBackupCode users uid code).2 uid =
        some { u with twoFactorBackupCodes := u.twoFactorBackupCodes.erase code } ∧
      code ∉ u.twoFactorBackupCodes.erase code ∧
      (TwoFactorService.verifyBackupCode
        (TwoFactorService.verifyBackupCode users uid code).2 uid code).1 = false) := by
  have hmain : code ∈ u.twoFactorBackupCodes →
      (TwoFactorService.verifyBackupCode users uid code).1 = true ∧
      findUser (TwoFactorService.verifyBackupCode users uid code).2 uid =
        some { u with twoFactorBackupCodes := u.twoFactorBackupCodes.erase code } := by
    intro hmem
    cases hidx : TwoFactorService.indexOfCode code u.twoFactorBackupCodes with
    | none => exact absurd hmem ((indexOfCode_eq_none_iff code _).mp hidx)
    | some i =>
      obtain ⟨heq, _⟩ := indexOfCode_eraseIdx code _ i hidx
      simp only [TwoFactorService.verifyBackupCode, hu, hidx]
      refine ⟨by simp, ?_⟩
      rw [findUser_updateUser users uid
        (fun v => { v with twoFactorBackupCodes := u.twoFactorBackupCodes.eraseIdx i }) u
        (fun v => rfl) hu, heq]
  constructor
  · constructor
    · intro htrue
      by_contra hmem
      have hnone := (indexOfCode_eq_none_iff code _).mpr hmem
      simp only [TwoFactorService.verifyBackupCode, hu, hnone] at htrue
      exact absurd htrue (by simp)
    · intro hmem
      exact (hmain hmem).1
  · intro hmem
    obtain ⟨h1, h2⟩ := hmain hmem
    have hnotmem : code ∉ u.twoFactorBackupCodes.erase code := by
      intro hmem2
      exact absurd (hnodup.mem_erase_iff.mp hmem2).1 (by simp)
    refine ⟨h1, h2, hnotmem, ?_⟩
    have hnone2 := (indexOfCode_eq_none_iff code _).mpr hnotmem
    generalize hst1 : (TwoFactorService.verifyBackupCode users uid code).2 = st1 at h2
    simp only [TwoFactorService.verifyBackupCode, h2, hnone2]

/-- Witness for C6: consuming the backup code BACKUP11 of the demo user. -/
theorem verifyBackupCode_consume_once_witness :
    ((TwoFactorService.verifyBackupCode twoFactorDemoUsers 1 "BACKUP11").1 = true ↔
      "BACKUP11" ∈ twoFactorDemoUser.twoFactorBackupCodes) ∧
    ("BACKUP11" ∈ twoFactorDemoUser.twoFactorBackupCodes →
      (TwoFactorService.verifyBackupCode twoFactorDemoUsers 1 "BACKUP11").1 = true ∧
      findUser (TwoFactorService.verifyBackupCode twoFactorDemoUsers 1 "BACKUP11").2 1 =
        some { twoFactorDemoUser with
                 twoFactorBackupCodes :=
                   twoFactorDemoUser.twoFactorBackupCodes.erase "BACKUP11" } ∧
      "BACKUP11" ∉ twoFactorDemoUser.twoFactorBackupCodes.erase "BACKUP11" ∧
      (TwoFactorService.verifyBackupCode
        (TwoFactorService.verifyBackupCode twoFactorDemoUsers 1 "BACKUP11").2 1
        "BACKUP11").1 = false) :=
  verifyBackupCode_consume_once twoFactorDemoUsers 1 "BACKUP11"
    twoFactorDemoUser (by decide) (by decide)

/-! ## C7 — disabling 2FA -/

/-- C7 counterexample: a valid unused backup code passes the login-time
combined verification (`verifyTwoFactor` tries TOTP, then backup codes), yet
`disableTwoFactor` rejects it with `Invalid 2FA token`, because disabling
verifies with `verifyToken` (TOTP) only.  Here every TOTP code is `000000`
and the submitted value is the stored backup code `BACKUP11`. -/
theorem disableTwoFactor_rejects_backup_code :
    (TwoFactorService.verifyTwoFactor (fun _ _ => "000000") 0 twoFactorDemoUsers 1
      "BACKUP11").1 = true ∧
    (TwoFactorService.disableTwoFactor (fun _ _ => "000000") 0 twoFactorDemoUsers 1
      "BACKUP11").1 = .error ⟨400, "Invalid 2FA token"⟩ :=
  ⟨by decide, rfl⟩

/-- C7 amended: for a user with 2FA enabled and a stored secret, disabling
2FA succeeds if and only if the submitted code is a valid TOTP code against
the current secret — a backup code does not suffice — and on success the
secret is wiped, the backup-code set is emptied, and the enabled/verified
flags are cleared. -/
theorem disableTwoFactor_totp_only (hotp : String → Int → String) (step : Int)
    (users : List User) (uid : Nat) (token : String) (u : User) (s : String)
    (hu : findUser users uid = some u) (hen : u.twoFactorEnabled = true)
    (hs : u.twoFactorSecret = some s) :
    ((TwoFactorService.disableTwoFactor hotp step users uid token).1 = .ok () ↔
      TwoFactorService.verifyToken hotp s step token = true) ∧
    (TwoFactorService.verifyToken hotp s step token = true →
      findUser (TwoFactorService.disableTwoFactor hotp step users uid token).2 uid =
        some { u with twoFactorEnabled := false, twoFactorSecret := none,
                      twoFactorBackupCodes := [], twoFactorVerified := false }) := by
  cases hv : TwoFactorService.verifyToken hotp s step token with
  | true =>
    have hres : TwoFactorService.disableTwoFactor hotp step users uid token =
        (.ok (), updateUser users uid fun v =>
          { v with twoFactorEnabled := false, twoFactorSecret := none,
                   twoFactorBackupCodes := [], twoFactorVerified := false }) := by
      simp only [TwoFactorService.disableTwoFactor, hu, hen, hs]
      simp [hv]
    rw [hres]
    refine ⟨by simp, fun _ => ?_⟩
    exact findUser_updateUser users uid
      (fun v => { v with twoFactorEnabled := false, twoFactorSecret := none,
                         twoFactorBackupCodes := [], twoFactorVerified := false }) u
      (fun v => rfl) hu
  | false =>
    have hres : TwoFactorService.disableTwoFactor hotp step users uid token =
        (.error ⟨400, "Invalid 2FA token"⟩, users) := by
      simp only [TwoFactorService.disableTwoFactor, hu, hen, hs]
      simp [hv]
    rw [hres]
    constructor
    · constructor
      · intro h
        exact absurd h (by simp)
      · intro h
        exact absurd h (by simp)
    · intro h
      exact absurd h (by simp)

/-- Witness for C7's amended theorem: the TOTP code of the current step
disables 2FA for the demo user. -/
theorem disableTwoFactor_totp_only_witness :
    ((TwoFactorService.disableTwoFactor (fun _ _ => "000000") 0 twoFactorDemoUsers 1
        "000000").1 = .ok () ↔
      TwoFactorService.verifyToken (fun _ _ => "000000") "JBSWY3DP" 0 "000000" = true) ∧
    (TwoFactorService.verifyToken (fun _ _ => "000000") "JBSWY3DP" 0 "000000" = true →
      findUser (TwoFactorService.disableTwoFactor (fun _ _ => "000000") 0
          twoFactorDemoUsers 1 "000000").2 1 =
        some { twoFactorDemoUser with
                 twoFactorEnabled := false, twoFactorSecret := none,
                 twoFactorBackupCodes := [], twoFactorVerified := false }) :=
  disableTwoFactor_totp_only (fun _ _ => "000000") 0 twoFactorDemoUsers 1 "000000"
    twoFactorDemoUser "JBSWY3DP" (by decide) (by decide) (by decide)

/-! ## C10 — login-time 2FA verification guards and ordering -/

/-- C10: `verifyTwoFactor` returns false — it never throws, every path
yields a boolean — when the user does not exist, when 2FA is not enabled, or
when no 2FA secret is stored; only with an existing, enabled user holding a
non-empty secret does it check codes, trying TOTP first and falling back to
the backup codes. -/
theorem verifyTwoFactor_guards_and_order (hotp : String → Int → String) (step : Int)
    (users : List User) (uid : Nat) (token : String) :
    (findUser users uid = none →
      TwoFactorService.verifyTwoFactor hotp step users uid token = (false, users)) ∧
    (∀ u, findUser users uid = some u → u.twoFactorEnabled = false →
      TwoFactorService.verifyTwoFactor hotp step users uid token = (false, users)) ∧
    (∀ u, findUser users uid = some u → u.twoFactorSecret = none →
      TwoFactorService.verifyTwoFactor hotp step users uid token = (false, users)) ∧
    (∀ u s, findUser users uid = some u → u.twoFactorEnabled = true →
      u.twoFactorSecret = some s → s ≠ "" →
      TwoFactorService.verifyTwoFactor hotp step users uid token =
        (if TwoFactorService.verifyToken hotp s step token then (true, users)
         else TwoFactorService.verifyBackupCode users uid token)) := by
  refine ⟨?_, ?_, ?_, ?_⟩
  · intro hnone
    simp [TwoFactorService.verifyTwoFactor, hnone]
  · intro u hu hdis
    simp [TwoFactorService.verifyTwoFactor, hu, hdis]
  · intro u hu hsec
    simp only [TwoFactorService.verifyTwoFactor, hu, hsec]
    cases hen : u.twoFactorEnabled <;> simp
  · intro u s hu hen hs hse
    have hbe : (s == "") = false := by
      simpa using hse
    simp only [TwoFactorService.verifyTwoFactor, hu, hen, hs, hbe]
    simp

/-- Witness for C10 at the demo store: the user exists with 2FA enabled and
a stored secret, so the dispatch reduces to TOTP-then-backup. -/
theorem verifyTwoFactor_guards_and_order_witness :
    TwoFactorService.verifyTwoFactor (fun _ _ => "000000") 0 twoFactorDemoUsers 1
        "BACKUP22" =
      (if TwoFactorService.verifyToken (fun _ _ => "000000") "JBSWY3DP" 0 "BACKUP22"
       then (true, twoFactorDemoUsers)
       else TwoFactorService.verifyBackupCode twoFactorDemoUsers 1 "BACKUP22") :=
  (verifyTwoFactor_guards_and_order (fun _ _ => "000000") 0 twoFactorDemoUsers 1
      "BACKUP22").2.2.2 twoFactorDemoUser "JBSWY3DP" (by decide) (by decide) (by decide)
    (by decide)

/-! ## C8 — password expiry -/

/-- C8 counterexample: one millisecond past the 90-day mark
(`passwordChangedAt = 0`, `now = 90 days + 1 ms`) the password is past
`passwordChangedAt + 90 days`, and `isPasswordExpired` duly reports
expiry — but `getPasswordExpiryInfo` reports `isExpired = false`, because it
tests `ceil(remaining days) < 0`, which only goes negative a full day after
the expiry date.  The claim's iff therefore fails for the expiry-info
query. -/
theorem passwordExpiry_queries_disagree :
    PasswordSecurityService.isPasswordExpired passwordDemoUsers 1 7776000001 = true ∧
    (PasswordSecurityService.getPasswordExpiryInfo passwordDemoUsers 1
        7776000001).isExpired = false := by
  constructor <;> decide

/-- C8 amended: `isPasswordExpired` reports expired exactly when
`now > passwordChangedAt + 90 days` and treats an unset `passwordChangedAt`
as not expired, as the claim states; `getPasswordExpiryInfo`, however,
reports expired exactly when `now ≥ passwordChangedAt + 91 days` (the
ceiling of the remaining days must be negative), one day later. -/
theorem passwordExpiry_characterization (users : List User) (uid : Nat)
    (now : Int) (u : User) (hu : findUser users uid = some u) :
    (u.passwordChangedAt = none →
      PasswordSecurityService.isPasswordExpired users uid now = false ∧
      (PasswordSecurityService.getPasswordExpiryInfo users uid now).isExpired = false) ∧
    (∀ changedAt, u.passwordChangedAt = some changedAt →
      (PasswordSecurityService.isPasswordExpired users uid now = true ↔
        changedAt + 90 * PasswordSecurityService.dayMs < now) ∧
      ((PasswordSecurityService.getPasswordExpiryInfo users uid now).isExpired = true ↔
        changedAt + 91 * PasswordSecurityService.dayMs ≤ now)) := by
  constructor
  · intro hnone
    constructor
    · simp [PasswordSecurityService.isPasswordExpired, hu, hnone]
    · simp [PasswordSecurityService.getPasswordExpiryInfo, hu, hnone]
  · intro changedAt hsome
    constructor
    · simp only [PasswordSecurityService.isPasswordExpired, hu, hsome,
        PasswordSecurityService.PASSWORD_EXPIRY_DAYS, decide_eq_true_eq]
    · simp [PasswordSecurityService.getPasswordExpiryInfo, hu, hsome,
        PasswordSecurityService.PASSWORD_EXPIRY_DAYS, PasswordSecurityService.ceilDiv,
        PasswordSecurityService.dayMs]
      omega

/-- Witness for C8's amended theorem at the demo user whose password was
changed at epoch 0. -/
theorem passwordExpiry_characterization_witness :
    ((passwordDemoUsers.headD baseUser).passwordChangedAt = none →
      PasswordSecurityService.isPasswordExpired passwordDemoUsers 1 7776000001 = false ∧
      (PasswordSecurityService.getPasswordExpiryInfo passwordDemoUsers 1
          7776000001).isExpired = false) ∧
    (∀ changedAt, (passwordDemoUsers.headD baseUser).passwordChangedAt = some changedAt →
      (PasswordSecurityService.isPasswordExpired passwordDemoUsers 1 7776000001 = true ↔
        changedAt + 90 * PasswordSecurityService.dayMs < 7776000001) ∧
      ((PasswordSecurityService.getPasswordExpiryInfo passwordDemoUsers 1
          7776000001).isExpired = true ↔
        changedAt + 91 * PasswordSecurityService.dayMs ≤ 7776000001)) :=
  passwordExpiry_characterization passwordDemoUsers 1 7776000001
    (passwordDemoUsers.headD baseUser) (by decide)

/-! ## C9 — committing a password change -/

/-- C9 counterexample: after a successful `updatePassword`, the head of the
stored history is the hash of the new candidate (salt 7, `NewPass2!`), not
the previous password hash `⟨0, OldPass1!⟩`, and `forcePasswordChange` is
still raised — the claim requires the previous hash to be pushed and the
flag to be cleared. -/
theorem updatePassword_keeps_force_flag :
    ((PasswordSecurityService.updatePassword passwordDemoUsers 1 "NewPass2!" 7
          1000).toOption.bind fun l => findUser l 1).map
        (fun v => (v.passwordHistory.head?, v.forcePasswordChange)) =
      some (some ⟨7, "NewPass2!"⟩, true) ∧
    (⟨7, "NewPass2!"⟩ : BHash) ≠ ⟨0, "OldPass1!"⟩ := by
  constructor <;> decide

/-- C9 amended: for a candidate that passes validation, `updatePassword`
stores the hash of the candidate as the user's password, pushes that new
hash (not the previous one) onto the history truncated to depth 5, sets
`passwordChangedAt` to now — and leaves the `forcePasswordChange` flag
untouched. -/
theorem updatePassword_commit (users : List User) (uid : Nat)
    (newPassword : String) (salt : Nat) (now : Int) (u : User)
    (hu : findUser users uid = some u)
    (hvalid : (PasswordSecurityService.validateNewPassword users uid
      newPassword).isValid = true) :
    ∃ users1,
      PasswordSecurityService.updatePassword users uid newPassword salt now =
        .ok users1 ∧
      findUser users1 uid =
        some { u with password := ⟨salt, newPassword⟩,
                      passwordHistory := (⟨salt, newPassword⟩ :: u.passwordHistory).take 5,
                      passwordChangedAt := some now } := by
  simp only [PasswordSecurityService.updatePassword, hvalid, Bool.not_true,
    Bool.false_eq_true, if_false, PasswordSecurityService.addPasswordToHistory, hu]
  refine ⟨_, rfl, ?_⟩
  have h1 := findUser_updateUser users uid
    (fun v => { v with
      passwordHistory := ((⟨salt, newPassword⟩ : BHash) :: u.passwordHistory).take
        PasswordSecurityService.PASSWORD_HISTORY_LIMIT,
      passwordChangedAt := some now }) u (fun v => rfl) hu
  have h2 := findUser_updateUser _ uid
    (fun v => { v with password := (⟨salt, newPassword⟩ : BHash),
                       passwordChangedAt := some now }) _ (fun v => rfl) h1
  rw [h2]
  rfl

/-- Witness for C9's amended theorem: committing `NewPass2!` for the demo
user. -/
theorem updatePassword_commit_witness :
    ∃ users1,
      PasswordSecurityService.updatePassword passwordDemoUsers 1 "NewPass2!" 7 1000 =
        .ok users1 ∧
      findUser users1 1 =
        some { passwordDemoUsers.headD baseUser with
                 password := ⟨7, "NewPass2!"⟩,
                 passwordHistory :=
                   ((⟨7, "NewPass2!"⟩ : BHash) ::
                     (passwordDemoUsers.headD baseUser).passwordHistory).take 5,
                 passwordChangedAt := some 1000 } :=
  updatePassword_commit passwordDemoUsers 1 "NewPass2!" 7 1000
    (passwordDemoUsers.headD baseUser) (by decide) (by decide)

/-! ## C5 — the device-limit query and the hard-reject login -/

/-- C5 counterexample: user 1 holds three `Device`-table rows but not one
active refresh-token session (`deviceLimitDemoState.tokens = []`), so by the
claim the limit is not reached — yet `hasReachedDeviceLimit` reports `true`,
because it counts every device row regardless of session activity, expiry,
or blacklist state. -/
theorem hasReachedDeviceLimit_counts_inactive_rows :
    DeviceService.hasReachedDeviceLimit deviceLimitDemoState.devices 1 3 = true ∧
    specHasReachedLimit deviceLimitDemoState.tokens 1 3 0 = false := by
  constructor <;> decide

/-- C5 amended: `hasReachedDeviceLimit(user, cap)` returns true iff the user
holds `cap` or more `Device`-table rows, counting every row regardless of
whether any refresh-token session is active, unexpired, or unblacklisted;
when it reports true, the hard-reject login variant fails with the
device-limit error and leaves the stores untouched — no token and no session
is created. -/
theorem hasReachedDeviceLimit_spec (st : AuthState) (email password : String)
    (info : DeviceService.DeviceInfo) (freshRowId : Nat) (nowSec nowMs : Int)
    (user : User)
    (hfind : st.users.find? (fun u => u.email == email) = some user)
    (hpw : isPasswordMatch password user.password = true)
    (hlock : user.isLocked = false)
    (hact : user.isActive = true)
    (hver : user.isEmailVerified = true)
    (hlimit : DeviceService.hasReachedDeviceLimit st.devices user.id 3 = true) :
    (∀ devices uid cap, DeviceService.hasReachedDeviceLimit devices uid cap = true ↔
      cap ≤ (devices.filter fun d => d.userId == uid).length) ∧
    AuthServiceV2.login st email password info freshRowId nowSec nowMs =
      (.error ⟨403, "Device limit reached. Please remove an old device to log in from a new one."⟩,
       st) := by
  constructor
  · intro devices uid cap
    simp [DeviceService.hasReachedDeviceLimit, ge_iff_le]
  · simp only [AuthServiceV2.login, hfind, hpw, hlock, hact, hver, hlimit]
    simp

/-- Witness for C5's amended theorem: the demo user at three device rows is
hard-rejected. -/
theorem hasReachedDeviceLimit_spec_witness :
    (∀ devices uid cap, DeviceService.hasReachedDeviceLimit devices uid cap = true ↔
      cap ≤ (devices.filter fun d => d.userId == uid).length) ∧
    AuthServiceV2.login deviceLimitDemoState "user@example.com" "Correct1!"
        demoDeviceInfo 60 0 0 =
      (.error ⟨403, "Device limit reached. Please remove an old device to log in from a new one."⟩,
       deviceLimitDemoState) :=
  hasReachedDeviceLimit_spec deviceLimitDemoState "user@example.com" "Correct1!"
    demoDeviceInfo 60 0 0 baseUser (by decide) (by decide) (by decide) (by decide)
    (by decide) (by decide)

/-! ## C4 — FIFO eviction at the device cap -/

/-- Blacklisting the rows with a given id removes exactly those rows from
any selection that excludes blacklisted rows. -/
theorem blacklistToken_filter (tokens : List TokenRecord) (p : TokenRecord → Bool)
    (tid : Nat) (hp : ∀ r : TokenRecord, p { r with blacklisted := true } = false) :
    (TokenService.blacklistToken tokens tid).filter p =
      tokens.filter fun r => p r && r.id != tid := by
  unfold TokenService.blacklistToken
  rw [List.filter_map]
  have hpg : ∀ r ∈ tokens,
      (p ∘ fun r => if r.id == tid then { r with blacklisted := true } else r) r =
        (fun r => p r && r.id != tid) r := by
    intro r _
    by_cases h : (r.id == tid) = true
    · simp [Function.comp, bne, h, hp r]
    · have h2 : (r.id == tid) = false := by simpa using h
      simp [Function.comp, bne, h2]
  rw [List.filter_congr hpg]
  have hid : ∀ r ∈ tokens.filter (fun r => p r && r.id != tid),
      (fun r => if r.id == tid then { r with blacklisted := true } else r) r = r := by
    intro r hr
    obtain ⟨-, hq⟩ := List.mem_filter.mp hr
    have h2 : (r.id != tid) = true := (Bool.and_eq_true _ _ |>.mp hq).2
    have h3 : (r.id == tid) = false := by simpa [bne] using h2
    simp [h3]
  calc (tokens.filter fun r => p r && r.id != tid).map
        (fun r => if r.id == tid then { r with blacklisted := true } else r)
      = (tokens.filter fun r => p r && r.id != tid).map id := List.map_congr_left hid
    _ = tokens.filter fun r => p r && r.id != tid := List.map_id _

/-- C4: with the user's active sessions being exactly A, B, C in creation
order (distinct rows, cap 3 reached), admitting a new device session
blacklists exactly the oldest session A and leaves the user's active
sessions as B, C and the new session D. -/
theorem createDeviceSession_evicts_oldest (tokens : List TokenRecord)
    (A B C : TokenRecord) (uid : Nat) (tokVal : Jwt) (now : Int) (freshId : Nat)
    (deviceId deviceName ipAddress userAgent : String)
    (hfilter : tokens.filter (DeviceSessionService.isActiveSession uid now) = [A, B, C])
    (hAB : A.createdAt < B.createdAt) (hBC : B.createdAt < C.createdAt)
    (hBA : B.id ≠ A.id) (hCA : C.id ≠ A.id) :
    (DeviceSessionService.createDeviceSession tokens uid tokVal now freshId
        deviceId deviceName ipAddress userAgent).2.filter
        (DeviceSessionService.isActiveSession uid now) =
      [B, C, DeviceSessionService.newSessionRecord uid tokVal now freshId
        deviceId deviceName ipAddress userAgent] ∧
    { A with blacklisted := true } ∈
      (DeviceSessionService.createDeviceSession tokens uid tokVal now freshId
        deviceId deviceName ipAddress userAgent).2 := by
  have hpblack : ∀ r : TokenRecord,
      DeviceSessionService.isActiveSession uid now { r with blacklisted := true } = false := by
    intro r
    simp [DeviceSessionService.isActiveSession]
  have hlimit : (DeviceSessionService.checkDeviceLimit tokens uid now).1 = true := by
    simp [DeviceSessionService.checkDeviceLimit, hfilter,
      DeviceSessionService.MAX_DEVICES_PER_USER]
  have holdest : DeviceSessionService.oldestActiveSession tokens uid now = some A := by
    simp only [DeviceSessionService.oldestActiveSession, hfilter, List.foldl]
    rw [if_neg (not_lt.mpr (le_of_lt hAB)), if_neg (not_lt.mpr (le_of_lt (hAB.trans hBC)))]
  have hremove : DeviceSessionService.removeOldestDevice tokens uid now =
      TokenService.blacklistToken tokens A.id := by
    simp [DeviceSessionService.removeOldestDevice, holdest]
  have hres : (DeviceSessionService.createDeviceSession tokens uid tokVal now freshId
      deviceId deviceName ipAddress userAgent).2 =
      TokenService.blacklistToken tokens A.id ++
        [DeviceSessionService.newSessionRecord uid tokVal now freshId deviceId deviceName
          ipAddress userAgent] := by
    simp [DeviceSessionService.createDeviceSession, hlimit, hremove]
  rw [hres]
  constructor
  · rw [List.filter_append, blacklistToken_filter tokens _ A.id hpblack]
    have hcomm : ∀ r ∈ tokens,
        (DeviceSessionService.isActiveSession uid now r && r.id != A.id) =
          ((r.id != A.id) && DeviceSessionService.isActiveSession uid now r) :=
      fun r _ => Bool.and_comm _ _
    rw [List.filter_congr hcomm, ← List.filter_filter, hfilter]
    have hBA2 : (B.id != A.id) = true := by simpa [bne_iff_ne] using hBA
    have hCA2 : (C.id != A.id) = true := by simpa [bne_iff_ne] using hCA
    have hnew : DeviceSessionService.isActiveSession uid now
        (DeviceSessionService.newSessionRecord uid tokVal now freshId deviceId deviceName
          ipAddress userAgent) = true := by
      simp only [DeviceSessionService.isActiveSession, DeviceSessionService.newSessionRecord]
      simp
    simp [List.filter_cons, hBA2, hCA2, hnew]
  · have hAmem : A ∈ tokens := by
      have hmem : A ∈ tokens.filter (DeviceSessionService.isActiveSession uid now) := by
        rw [hfilter]
        exact List.mem_cons_self _ _
      exact (List.mem_filter.mp hmem).1
    apply List.mem_append_left
    have hAeq : { A with blacklisted := true } =
        (fun r => if r.id == A.id then { r with blacklisted := true } else r) A := by
      simp
    unfold TokenService.blacklistToken
    rw [hAeq]
    exact List.mem_map_of_mem _ hAmem

/-- Witness for C4: admitting a fourth session at time 500 with A, B, C
created at 100, 200, 300 evicts exactly A. -/
theorem createDeviceSession_evicts_oldest_witness :
    (DeviceSessionService.createDeviceSession [sessionA, sessionB, sessionC] 1
        ⟨1, 3, 9999, .REFRESH⟩ 500 14 "dD" "D" "ip" "ua").2.filter
        (DeviceSessionService.isActiveSession 1 500) =
      [sessionB, sessionC,
        DeviceSessionService.newSessionRecord 1 ⟨1, 3, 9999, .REFRESH⟩ 500 14
          "dD" "D" "ip" "ua"] ∧
    { sessionA with blacklisted := true } ∈
      (DeviceSessionService.createDeviceSession [sessionA, sessionB, sessionC] 1
        ⟨1, 3, 9999, .REFRESH⟩ 500 14 "dD" "D" "ip" "ua").2 :=
  createDeviceSession_evicts_oldest [sessionA, sessionB, sessionC] sessionA sessionB
    sessionC 1 ⟨1, 3, 9999, .REFRESH⟩ 500 14 "dD" "D" "ip" "ua" (by decide) (by decide)
    (by decide) (by decide) (by decide)

/-! ## C2 — refresh-token rotation -/

/-- The token-side effect of device.service `createDeviceSession` is a
metadata-only map over the token store: it never changes a row's token
value, type, owner, blacklist flag, or id, and it leaves rows not holding
the refresh token untouched. -/
theorem createDeviceSession_tokens_meta (devices : List DeviceRec)
    (tokens : List TokenRecord) (uid : Nat) (rt : Jwt)
    (info : DeviceService.DeviceInfo) (freshRowId : Nat) (now : Int) :
    ∃ f : TokenRecord → TokenRecord,
      (DeviceService.createDeviceSession devices tokens uid rt info freshRowId now).2.2 =
        tokens.map f ∧
      (∀ r : TokenRecord, (f r).token = r.token ∧ (f r).type = r.type ∧
        (f r).userId = r.userId ∧ (f r).blacklisted = r.blacklisted ∧ (f r).id = r.id) ∧
      (∀ r : TokenRecord, (r.token == rt) = false → f r = r) := by
  cases hdev : DeviceService.getDeviceById devices info.deviceId uid with
  | some d =>
    refine ⟨fun r =>
      if r.token == rt && r.userId == uid then
        { r with deviceId := some d.deviceId, deviceName := some d.deviceName,
                 ipAddress := info.ipAddress, userAgent := info.userAgent }
      else r, ?_, ?_, ?_⟩
    · simp [DeviceService.createDeviceSession, hdev]
    · intro r
      by_cases h : (r.token == rt && r.userId == uid) = true
      · simp [h]
      · have h2 : (r.token == rt && r.userId == uid) = false := by simpa using h
        simp [h2]
    · intro r hr
      simp [hr]
  | none =>
    refine ⟨fun r =>
      if r.token == rt && r.userId == uid then
        { r with deviceId := some info.deviceId, deviceName := some info.deviceName,
                 ipAddress := info.ipAddress, userAgent := info.userAgent }
      else r, ?_, ?_, ?_⟩
    · simp [DeviceService.createDeviceSession, hdev]
    · intro r
      by_cases h : (r.token == rt && r.userId == uid) = true
      · simp [h]
      · have h2 : (r.token == rt && r.userId == uid) = false := by simpa using h
        simp [h2]
    · intro r hr
      simp [hr]

/-- C2 amended: when the store holds exactly one row for the presented
refresh token (unexpired, not blacklisted) and its user exists, the first
`refreshAuth` call succeeds with a freshly signed access/refresh pair and
blacklists the old token's row; a second call presenting the same token
value — still within the token's original expiry — fails, with the generic
`ApiError(401, 'Please authenticate')` that `refreshAuth` raises for every
failure (the code does not surface a distinguishable revoked-token error). -/
theorem refreshAuth_rotation (st : AuthState) (tok : Jwt) (R : TokenRecord)
    (user : User) (info : DeviceService.DeviceInfo) (freshRowId : Nat)
    (nowSec nowMs : Int)
    (hfilter : st.tokens.filter (TokenService.verifyMatch tok .REFRESH) = [R])
    (huser : findUser st.users tok.sub = some user)
    (hexp : nowSec < tok.exp)
    (hiat : tok.iat ≠ nowSec) :
    (∃ resp, (AuthServiceV2.refreshAuth st tok info freshRowId nowSec nowMs).1 =
        .ok resp ∧
      resp.accessToken = TokenService.generateToken user.id nowSec
        (nowSec + TokenService.accessExpirationMinutes * 60) .ACCESS ∧
      resp.refreshToken = TokenService.generateToken user.id nowSec
        (nowSec + TokenService.refreshExpirationDays * 86400) .REFRESH) ∧
    { R with blacklisted := true } ∈
      (AuthServiceV2.refreshAuth st tok info freshRowId nowSec nowMs).2.tokens ∧
    (∀ (info2 : DeviceService.DeviceInfo) (freshRowId2 : Nat) (nowSec2 nowMs2 : Int),
      nowSec2 < tok.exp →
      (AuthServiceV2.refreshAuth
          (AuthServiceV2.refreshAuth st tok info freshRowId nowSec nowMs).2
          tok info2 freshRowId2 nowSec2 nowMs2).1 =
        .error ⟨401, "Please authenticate"⟩) := by
  have hmem : R ∈ st.tokens.filter (TokenService.verifyMatch tok .REFRESH) := by
    rw [hfilter]
    exact List.mem_cons_self _ _
  have hRmem : R ∈ st.tokens := (List.mem_filter.mp hmem).1
  have hR := (List.mem_filter.mp hmem).2
  simp only [TokenService.verifyMatch, Bool.and_eq_true, beq_iff_eq,
    Bool.not_eq_true'] at hR
  obtain ⟨⟨⟨hRtok, hRtyp⟩, hRuid⟩, hRbl⟩ := hR
  have hjwt : TokenService.jwtVerify tok nowSec = .ok tok := by
    unfold TokenService.jwtVerify
    rw [if_neg (not_le.mpr hexp)]
  have hfind : st.tokens.find? (TokenService.verifyMatch tok TokenType.REFRESH) =
      some R := by
    rw [find_eq_head_filter, hfilter]
    rfl
  have hfind2 : st.tokens.find?
      (TokenService.verifyMatch ⟨tok.sub, tok.iat, tok.exp, tok.type⟩ TokenType.REFRESH) =
      some R := hfind
  have hver : TokenService.verifyToken st.tokens tok .REFRESH nowSec = .ok R := by
    simp only [TokenService.verifyToken, hjwt, hfind2]
  have htokne : (R.token ==
      TokenService.generateToken user.id nowSec
        (nowSec + TokenService.refreshExpirationDays * 86400) .REFRESH) = false := by
    rw [hRtok]
    have hne : tok ≠ TokenService.generateToken user.id nowSec
        (nowSec + TokenService.refreshExpirationDays * 86400) .REFRESH := by
      intro h
      exact hiat (congrArg Jwt.iat h)
    simpa using hne
  obtain ⟨f, hftok, hfpres, hfid⟩ :=
    createDeviceSession_tokens_meta st.devices st.tokens user.id
      (TokenService.generateToken user.id nowSec
        (nowSec + TokenService.refreshExpirationDays * 86400) .REFRESH)
      info freshRowId nowMs
  cases hcds : DeviceService.createDeviceSession st.devices st.tokens user.id
      (TokenService.generateToken user.id nowSec
        (nowSec + TokenService.refreshExpirationDays * 86400) .REFRESH)
      info freshRowId nowMs with
  | mk session rest =>
  cases rest with
  | mk devices1 tokens1 =>
  rw [hcds] at hftok
  dsimp only at hftok
  have hgen : TokenService.generateAuthTokens st user.id info freshRowId nowSec nowMs =
      (⟨TokenService.generateToken user.id nowSec
          (nowSec + TokenService.accessExpirationMinutes * 60) .ACCESS,
        nowSec + TokenService.accessExpirationMinutes * 60,
        TokenService.generateToken user.id nowSec
          (nowSec + TokenService.refreshExpirationDays * 86400) .REFRESH,
        nowSec + TokenService.refreshExpirationDays * 86400,
        session.deviceId, session.deviceName⟩,
       { st with devices := devices1, tokens := tokens1 }) := by
    simp only [TokenService.generateAuthTokens, hcds]
  have hcall : AuthServiceV2.refreshAuth st tok info freshRowId nowSec nowMs =
      (.ok ⟨TokenService.generateToken user.id nowSec
          (nowSec + TokenService.accessExpirationMinutes * 60) .ACCESS,
        nowSec + TokenService.accessExpirationMinutes * 60,
        TokenService.generateToken user.id nowSec
          (nowSec + TokenService.refreshExpirationDays * 86400) .REFRESH,
        nowSec + TokenService.refreshExpirationDays * 86400,
        session.deviceId, session.deviceName⟩,
       { st with devices := devices1,
                 tokens := TokenService.blacklistToken tokens1 R.id }) := by
    simp only [AuthServiceV2.refreshAuth, hver, hRuid, huser, hgen]
  refine ⟨⟨_, by rw [hcall], rfl, rfl⟩, ?_, ?_⟩
  · rw [hcall]
    show { R with blacklisted := true } ∈ TokenService.blacklistToken tokens1 R.id
    rw [hftok]
    unfold TokenService.blacklistToken
    have hfR : f R = R := hfid R htokne
    have hAeq : { R with blacklisted := true } =
        (fun r => if r.id == R.id then { r with blacklisted := true } else r) (f R) := by
      rw [hfR]
      simp
    rw [hAeq]
    exact List.mem_map_of_mem _ (List.mem_map_of_mem f hRmem)
  · intro info2 freshRowId2 nowSec2 nowMs2 hexp2
    rw [hcall]
    have hpblack : ∀ r : TokenRecord,
        TokenService.verifyMatch tok .REFRESH { r with blacklisted := true } = false := by
      intro r
      simp [TokenService.verifyMatch]
    have hfilter2 : (TokenService.blacklistToken tokens1 R.id).filter
        (TokenService.verifyMatch tok .REFRESH) = [] := by
      rw [blacklistToken_filter _ _ R.id hpblack, hftok, List.filter_map]
      have hpt : ∀ r ∈ st.tokens,
          ((fun r => TokenService.verifyMatch tok .REFRESH r && r.id != R.id) ∘ f) r =
            (fun r => TokenService.verifyMatch tok .REFRESH r && r.id != R.id) r := by
        intro r _
        obtain ⟨h1, h2, h3, h4, h5⟩ := hfpres r
        simp [Function.comp, TokenService.verifyMatch, h1, h2, h3, h4, h5]
      rw [List.filter_congr hpt]
      have hcomm : ∀ r ∈ st.tokens,
          (TokenService.verifyMatch tok .REFRESH r && r.id != R.id) =
            ((r.id != R.id) && TokenService.verifyMatch tok .REFRESH r) :=
        fun r _ => Bool.and_comm _ _
      rw [List.filter_congr hcomm, ← List.filter_filter, hfilter]
      simp [List.filter_cons]
    have hjwt2 : TokenService.jwtVerify tok nowSec2 = .ok tok := by
      unfold TokenService.jwtVerify
      rw [if_neg (not_le.mpr hexp2)]
    have hfind3 : (TokenService.blacklistToken tokens1 R.id).find?
        (TokenService.verifyMatch ⟨tok.sub, tok.iat, tok.exp, tok.type⟩ TokenType.REFRESH) =
        none := by
      show (TokenService.blacklistToken tokens1 R.id).find?
        (TokenService.verifyMatch tok TokenType.REFRESH) = none
      rw [find_eq_head_filter, hfilter2]
      rfl
    have hver2 : TokenService.verifyToken (TokenService.blacklistToken tokens1 R.id) tok
        .REFRESH nowSec2 = .error .tokenNotFound := by
      simp only [TokenService.verifyToken, hjwt2, hfind3]
    simp only [AuthServiceV2.refreshAuth, hver2]

/-- Witness for C2's amended theorem: rotating `refreshDemoToken` at epoch
second 10 and replaying it at epoch second 20, far inside its expiry at
epoch second 1000000. -/
theorem refreshAuth_rotation_witness :
    (∃ resp, (AuthServiceV2.refreshAuth refreshDemoState refreshDemoToken demoDeviceInfo
        50 10 10000).1 = .ok resp ∧
      resp.accessToken = TokenService.generateToken baseUser.id 10
        (10 + TokenService.accessExpirationMinutes * 60) .ACCESS ∧
      resp.refreshToken = TokenService.generateToken baseUser.id 10
        (10 + TokenService.refreshExpirationDays * 86400) .REFRESH) ∧
    { refreshDemoRecord with blacklisted := true } ∈
      (AuthServiceV2.refreshAuth refreshDemoState refreshDemoToken demoDeviceInfo
        50 10 10000).2.tokens ∧
    (∀ (info2 : DeviceService.DeviceInfo) (freshRowId2 : Nat) (nowSec2 nowMs2 : Int),
      nowSec2 < refreshDemoToken.exp →
      (AuthServiceV2.refreshAuth
          (AuthServiceV2.refreshAuth refreshDemoState refreshDemoToken demoDeviceInfo
            50 10 10000).2
          refreshDemoToken info2 freshRowId2 nowSec2 nowMs2).1 =
        .error ⟨401, "Please authenticate"⟩) :=
  refreshAuth_rotation refreshDemoState refreshDemoToken refreshDemoRecord baseUser
    demoDeviceInfo 50 10 10000 (by decide) (by decide) (by decide) (by decide)

/-- C2 counterexample to the claim's error typing: the second use of the
rotated `refreshDemoToken` (at epoch second 20, far within its original
expiry) fails with exactly the same `ApiError(401, 'Please authenticate')`
value that `refreshAuth` produces for a refresh token that was never issued
at all (here one with subject 2 and no stored row).  The failure is thus not
a distinguishable revoked-token error: no revocation-specific error type
exists in the code. -/
theorem refreshAuth_error_not_revocation_specific :
    (AuthServiceV2.refreshAuth
        (AuthServiceV2.refreshAuth refreshDemoState refreshDemoToken demoDeviceInfo
          50 10 10000).2
        refreshDemoToken demoDeviceInfo 51 20 20000).1 =
      .error ⟨401, "Please authenticate"⟩ ∧
    (AuthServiceV2.refreshAuth refreshDemoState ⟨2, 0, 1000000, .REFRESH⟩
        demoDeviceInfo 50 10 10000).1 =
      .error ⟨401, "Please authenticate"⟩ :=
  ⟨rfl, rfl⟩

end RestApi
